import Mathlib

/-!
Shallow embedding of the team-agent workload session orchestrator
(`services/ai/src/ai/workload.py`, `services/ai/src/ai/tool_approval.py`,
`services/ai/src/ai/listener.py`, `services/ai/src/ai/main.py`,
`services/api/src/api/routes/workloads.py`), with theorems settling the
specification claims about session lifecycle, tool approval, merging, and
resume behaviour.

Python dictionaries keyed by strings are modelled as association lists;
mutation is modelled by returning updated values; external effects
(git subprocesses, Redis publishes, DB updates) are modelled as effect
lists or explicit result values; the outcome of external operations
(filesystem checks, git exit codes, connection success) is supplied by a
"world" record so every definition stays executable.
-/

namespace TeamAgent

/- ── Generic association-list helpers (model of Python dicts) ───────── -/

/-- Dictionary lookup: `d.get(k)` / `d[k]`. -/
def alookup {α : Type} (m : List (String × α)) (k : String) : Option α :=
  match m with
  | [] => none
  | e :: rest => if e.1 == k then some e.2 else alookup rest k

/-- In-place update of the value stored at a key (Python mutation of the
stored object, e.g. `future.set_result`); identity when the key is absent. -/
def aupdate {α : Type} (m : List (String × α)) (k : String) (f : α → α) :
    List (String × α) :=
  match m with
  | [] => []
  | e :: rest =>
    (if e.1 == k then (e.1, f e.2) else e) :: aupdate rest k f

/-- Dictionary removal: `d.pop(k, None)`. -/
def aerase {α : Type} (m : List (String × α)) (k : String) : List (String × α) :=
  m.filter (fun e => e.1 != k)

theorem alookup_aupdate_self {α : Type} (m : List (String × α)) (k : String)
    (f : α → α) : alookup (aupdate m k f) k = (alookup m k).map f := by
  induction m with
  | nil => rfl
  | cons e rest ih =>
    by_cases h : (e.1 == k) = true
    · simp [alookup, aupdate, h]
    · simp only [Bool.not_eq_true] at h
      simp [alookup, aupdate, h, ih]

theorem alookup_aerase_self {α : Type} (m : List (String × α)) (k : String) :
    alookup (aerase m k) k = none := by
  induction m with
  | nil => rfl
  | cons e rest ih =>
    simp only [aerase, List.filter_cons] at ih ⊢
    by_cases h : (e.1 == k) = true
    · have hp : (e.1 != k) = false := by simp [bne, h]
      simpa [hp] using ih
    · simp only [Bool.not_eq_true] at h
      have hp : (e.1 != k) = true := by simp [bne, h]
      simpa [hp, alookup, h] using ih

/- ── Python string semantics helpers ─────────────────────────────────── -/

/-- Characters matched by Python's `\s` (ASCII whitespace). -/
def isPySpace (c : Char) : Bool :=
  c == ' ' || c == '\t' || c == '\n' || c == '\r' || c == '\x0b' || c == '\x0c'

/-- Drop characters satisfying `p` from both ends of a character list. -/
def stripWhile (p : Char → Bool) (l : List Char) : List Char :=
  ((l.dropWhile p).reverse.dropWhile p).reverse

/-- Python `str.strip()` (no argument: strips whitespace). -/
def pyStrip (s : String) : String := String.mk (stripWhile isPySpace s.data)

/-- Python `str.split()` (no argument: split on whitespace runs, dropping
empties), character by character. -/
def pyWords (l : List Char) : List String :=
  let step : Char → List (List Char) → List (List Char) := fun c acc =>
    if isPySpace c then [] :: acc
    else
      match acc with
      | [] => [[c]]
      | w :: rest => (c :: w) :: rest
  ((l.foldr step []).filter (fun w => !w.isEmpty)).map String.mk

/-- Python `s.startswith(pre)` (character-wise, as Python strings are
sequences of characters). -/
def strStartsWith (s pre : String) : Bool := pre.data.isPrefixOf s.data

/-- Python `s.endswith(suf)`. -/
def strEndsWith (s suf : String) : Bool :=
  suf.data.reverse.isPrefixOf s.data.reverse

/-- Python slice `s[:-n]`: drop the last `n` characters. -/
def strDropRight (s : String) (n : Nat) : String :=
  String.mk (s.data.take (s.data.length - n))

/-- Python lowercasing of one ASCII character (`str.lower()`). -/
def pyLowerChar (c : Char) : Char :=
  if 65 ≤ c.toNat && c.toNat ≤ 90 then Char.ofNat (c.toNat + 32) else c

/-- Python truthiness of an optional string: `None` and `""` are falsy. -/
def pyFalsyOptStr (o : Option String) : Bool :=
  match o with
  | none => true
  | some s => s == ""

/-- Python `needle in haystack` substring test. -/
def pyInStr (needle hay : String) : Bool :=
  (hay.splitOn needle).length ≥ 2

namespace ToolApproval

/- ── tool_approval.py ────────────────────────────────────────────────── -/

/-- How long to wait for a human response before auto-denying
(`APPROVAL_TIMEOUT_SECONDS` in `tool_approval.py`). -/
def APPROVAL_TIMEOUT_SECONDS : Nat := 300

/-- The `permissions.allow` array of the project's
`.claude/settings.local.json` document. -/
abbrev AllowDoc := List String

/-- Embeds `_read_project_allowed_tools`: the settings file is modelled as
`none` when missing or unparsable, in which case the allow list is empty. -/
def readProjectAllowedTools (doc : Option AllowDoc) : AllowDoc :=
  match doc with
  | none => []
  | some l => l

/-- Embeds `_write_project_allowed_tool`: append the permission key to the
project's `permissions.allow` array if not already present. -/
def writeProjectAllowedTool (doc : AllowDoc) (permissionKey : String) : AllowDoc :=
  if doc.contains permissionKey then doc else doc ++ [permissionKey]

/-- The fields of a tool call's input dict that the approval bridge reads;
a field is `none` when the key is absent from the dict. -/
structure ToolInput where
  command : Option String := none
  url : Option String := none
  file_path : Option String := none
deriving DecidableEq, Repr

/-- One rule of a `PermissionUpdate` suggestion: its optional `tool_name`
field (`none` when absent or null). -/
abbrev Rule := Option String

/-- One suggestion from the agent runtime: its `rules` list. -/
abbrev Suggestion := List Rule

/-- Scan a suggestion's rules for the first truthy key
(`if key: return key` skips `None` and the empty string). -/
def firstRuleKey : List Rule → Option String
  | [] => none
  | r :: rest =>
    match r with
    | some k => if k == "" then firstRuleKey rest else some k
    | none => firstRuleKey rest

/-- Scan all suggestions for the first truthy rule key. -/
def firstSuggestedKey : List Suggestion → Option String
  | [] => none
  | rules :: rest =>
    match firstRuleKey rules with
    | some k => some k
    | none => firstSuggestedKey rest

/-- The `Bash` fallback key: first two whitespace-separated tokens of the
stripped command joined by a space (the single token when only one, the
stripped command itself when none), with a wildcard suffix. -/
def bashCommandKey (command : String) : String :=
  let cmd := pyStrip command
  let parts := pyWords cmd.data
  let pfx :=
    match parts with
    | a :: b :: _ => a ++ " " ++ b
    | [p] => p
    | [] => cmd
  "Bash(" ++ pfx ++ ":*)"

/-- Network-location component of a URL, as Python's
`urllib.parse.urlparse(url).netloc` yields for the common
`scheme://host/path` form: the text after the first `//` up to the next
`/`, `?` or `#`; empty when the URL has no `//`. -/
def urlNetloc (url : String) : String :=
  match url.splitOn "//" with
  | _ :: restPart :: _ =>
    String.mk (restPart.data.takeWhile (fun c => c != '/' && c != '?' && c != '#'))
  | _ => ""

/-- Embeds `_build_permission_key`: prefer the first key suggested by the
agent runtime, else derive one from the tool name and input. -/
def buildPermissionKey (toolName : String) (toolInput : ToolInput)
    (suggestions : List Suggestion) : String :=
  match firstSuggestedKey suggestions with
  | some key => key
  | none =>
    if toolName == "Bash" && toolInput.command.isSome then
      bashCommandKey (toolInput.command.getD "")
    else if toolName == "Write" || toolName == "Edit" || toolName == "MultiEdit"
        || toolName == "Read" || toolName == "Glob" || toolName == "Grep" then
      toolName
    else if toolName == "WebFetch" && toolInput.url.isSome then
      let domain := urlNetloc (toolInput.url.getD "")
      if domain != "" then "WebFetch(domain:" ++ domain ++ ")" else "WebFetch"
    else
      toolName

/-- Embeds `_tool_matches`: check whether the current tool call matches any
entry of the allow list (exact key, bare tool name, wildcard-suffix prefix
with the pattern's last two characters dropped, or the bare glob form). -/
def toolMatches (toolName : String) (toolInput : ToolInput)
    (allowed : List String) (suggestions : List Suggestion) : Bool :=
  let permissionKey := buildPermissionKey toolName toolInput suggestions
  allowed.any (fun pat =>
    pat == permissionKey
    || pat == toolName
    || (strEndsWith pat ":*)" && strStartsWith permissionKey (strDropRight pat 2))
    || pat == toolName ++ "(*)")

/-- A human decision dict as assembled by `listen_tool_approvals`.
The `reason` field is `none` when the `"reason"` key is absent from the
dict, `some none` when present with value `None`, and `some (some r)`
when present with string `r`. -/
structure Decision where
  tier : String
  reason : Option (Option String)
deriving DecidableEq, Repr

/-- Python `decision.get("reason", "Denied by human reviewer.")`: the
default applies only when the key is absent. -/
def dictGetReason (d : Decision) : Option String :=
  match d.reason with
  | none => some "Denied by human reviewer."
  | some v => v

/-- Result of the `can_use_tool` callback (`PermissionResultAllow` or
`PermissionResultDeny` with its message). -/
inductive PermissionResult where
  | allow : PermissionResult
  | deny (message : Option String) : PermissionResult
deriving DecidableEq, Repr

/-- Python `set.add` on a set modelled as a duplicate-free list. -/
def setAdd (s : List String) (k : String) : List String :=
  if s.contains k then s else s ++ [k]

/-- Step 5 of the `can_use_tool` callback: process a human decision.
Returns the permission result, the session approvals set afterwards, and
the project allow document afterwards. -/
def processDecision (d : Decision) (permissionKey : String)
    (sessionApprovals : List String) (projectDoc : AllowDoc) :
    PermissionResult × List String × AllowDoc :=
  if d.tier == "deny" then
    (.deny (dictGetReason d), sessionApprovals, projectDoc)
  else
    let sess1 :=
      if d.tier == "approve_session" then setAdd sessionApprovals permissionKey
      else sessionApprovals
    let sess2 :=
      if d.tier == "approve_project" then setAdd sess1 permissionKey
      else sess1
    let doc2 :=
      if d.tier == "approve_project" then writeProjectAllowedTool projectDoc permissionKey
      else projectDoc
    (.allow, sess2, doc2)

/-- State of one pending-approval slot (`asyncio.Future`). -/
inductive FutureState where
  | pending
  | done (result : Decision)
deriving DecidableEq, Repr

/-- The `pending_approvals` map: request id → single-resolution slot. -/
abbrev PendingMap := List (String × FutureState)

/-- How the wait on an approval future concludes: a human decision arrived,
or the 300-second timeout elapsed first. -/
inductive WaitOutcome where
  | decided (d : Decision)
  | timedOut
deriving DecidableEq, Repr

/-- Embeds `asyncio.wait_for(future, timeout=APPROVAL_TIMEOUT_SECONDS)`:
yields the decision, or raises `TimeoutError` (the `Except` error). -/
def waitFor (o : WaitOutcome) : Except Unit Decision :=
  match o with
  | .decided d => .ok d
  | .timedOut => .error ()

/-- The denial message produced when no human responds in time. -/
def timeoutMessage (toolName : String) : String :=
  "Tool approval timed out after " ++ toString APPROVAL_TIMEOUT_SECONDS
    ++ "s. No human responded to the request to use " ++ toolName ++ "."

/-- Steps 4 and 5 of `can_use_tool` after the approval request has been
published: wait for the human decision, converting a timeout into an
explicit denial (the `except asyncio.TimeoutError` branch), and pop the
request id from the pending map in every case (the `finally` branch).
Returns the permission result, the session approvals, the project allow
document, and the pending map afterwards. -/
def concludeApprovalWait (toolName permissionKey : String)
    (sessionApprovals : List String) (projectDoc : AllowDoc)
    (pending : PendingMap) (approvalRequestId : String)
    (outcome : WaitOutcome) :
    PermissionResult × List String × AllowDoc × PendingMap :=
  match waitFor outcome with
  | .error _ =>
    (.deny (some (timeoutMessage toolName)), sessionApprovals, projectDoc,
     aerase pending approvalRequestId)
  | .ok d =>
    let out := processDecision d permissionKey sessionApprovals projectDoc
    (out.1, out.2.1, out.2.2, aerase pending approvalRequestId)

end ToolApproval

namespace Workload

/- ── workload.py ─────────────────────────────────────────────────────── -/

/-- Characters kept by the first substitution of `_slugify`
(the class of lowercase letters, digits, whitespace and hyphens). -/
def keepSlugChar (c : Char) : Bool :=
  (97 ≤ c.toNat && c.toNat ≤ 122) || (48 ≤ c.toNat && c.toNat ≤ 57)
    || isPySpace c || c == '-'

/-- Replace every maximal run of characters satisfying `p` by the single
replacement character (the effect of `re.sub` with a `+`-quantified class). -/
def collapseRuns (p : Char → Bool) (rep : Char) : List Char → List Char
  | [] => []
  | [c] => if p c then [rep] else [c]
  | c :: d :: rest =>
    if p c && p d then collapseRuns p rep (d :: rest)
    else (if p c then rep else c) :: collapseRuns p rep (d :: rest)

/-- Embeds `_slugify`: lowercase and strip the title, delete characters
outside lowercase letters, digits, whitespace and hyphens, turn runs of
whitespace or underscores into one hyphen, collapse hyphen runs, strip
hyphens, truncate to 50 characters, and append the first 8 characters of
the workload id. -/
def slugify (title workloadId : String) : String :=
  let s0 := stripWhile isPySpace (title.data.map pyLowerChar)
  let s1 := s0.filter keepSlugChar
  let s2 := collapseRuns (fun c => isPySpace c || c == '_') '-' s1
  let s3 := collapseRuns (fun c => c == '-') '-' s2
  let s4 := stripWhile (fun c => c == '-') s3
  String.mk (s4.take 50) ++ "-" ++ String.mk (workloadId.data.take 8)

/-- Filesystem paths are modelled as component lists; `Path.parent` drops
the last component. -/
abbrev FsPath := List String

/-- Worktree location `clone_path/../worktrees/slug`. -/
def worktreePathOf (clonePath : FsPath) (slug : String) : FsPath :=
  clonePath.dropLast ++ ["worktrees", slug]

/-- Branch `workload/slug`. -/
def branchNameOf (slug : String) : String := "workload/" ++ slug

/-- Exit of one git subprocess: success, or failure with its stderr text. -/
inductive GitResult where
  | ok
  | err (msg : String)
deriving DecidableEq, Repr

/-- Externally observable steps taken by session startup. -/
inductive StartEffect where
  | warnedDuplicate
  | worktreeReused (path : FsPath)
  | worktreeCreated (path : FsPath) (branch : String)
  | dbStatus (workloadId status : String)
  | dbBranchAndRunning (workloadId branch : String)
  | statusPublished (workloadId status roomId : String)
  | sessionRegistered (workloadId : String)
  | sessionUnregistered (workloadId : String)
  | clientConnected (workloadId : String)
  | relayStarted (workloadId : String)
  | initialPromptSent (workloadId : String)
  | resumedExisting (workloadId sessionId : String)
deriving DecidableEq, Repr

/-- Outcomes of the external operations session startup performs. -/
structure StartWorld where
  worktreeExists : Bool
  firstAdd : GitResult
  secondAdd : GitResult
  checkedOutBranch : Option String
  connectOk : Bool
deriving Repr

/-- Embeds `_ensure_worktree`: reuse an existing worktree path; otherwise
`git worktree add -b`, retrying without `-b` when git reports the branch
already exists; any other git failure propagates as an error. -/
def ensureWorktree (w : StartWorld) (clonePath : FsPath) (slug : String) :
    Except String FsPath × List StartEffect :=
  let worktreePath := worktreePathOf clonePath slug
  let branchName := branchNameOf slug
  if w.worktreeExists then
    (.ok worktreePath, [.worktreeReused worktreePath])
  else
    match w.firstAdd with
    | .ok => (.ok worktreePath, [.worktreeCreated worktreePath branchName])
    | .err msg =>
      if pyInStr "already exists" msg then
        match w.secondAdd with
        | .ok => (.ok worktreePath, [.worktreeCreated worktreePath branchName])
        | .err msg2 => (.error ("Failed to create worktree: " ++ msg2), [])
      else
        (.error ("Failed to create worktree: " ++ msg), [])

/-- The maximum number of merge retry rounds (`_MAX_MERGE_RETRIES`). -/
def MAX_MERGE_RETRIES : Nat := 2

/-- The merge outcome record shared between the Stop hook and the relay. -/
structure MergeState where
  succeeded : Option Bool
  retries : Nat
  targetBranch : String
deriving DecidableEq, Repr

/-- The hook's JSON answer: whether the agent continues, and the optional
`stopReason` / `reason` texts. -/
structure HookOutput where
  continueRunning : Bool
  stopReason : Option String := none
  reason : Option String := none
deriving DecidableEq, Repr

/-- Git commands the Stop hook can issue. -/
inductive GitEffect where
  | addAll
  | statusCheck
  | commit
  | mergeAttempt (branch : String)
  | worktreeRemove
  | branchDelete (branch : String)
  | push
  | mergeAbort
deriving DecidableEq, Repr

/-- External observations made by one Stop-hook invocation. -/
structure HookWorld where
  worktreeExists : Bool
  hasUncommitted : Bool
  mergeOk : Bool
deriving DecidableEq, Repr

def sq : String := String.singleton '\x27'

/-- The `stopReason` reported when the retry budget is exhausted. -/
def mergeFailedMessage (retries : Nat) (branchName : String) : String :=
  "Merge failed after " ++ toString retries ++ " attempts. Branch "
    ++ sq ++ branchName ++ sq ++ " is preserved for manual resolution."

/-- The rebase instruction sent to the agent on a merge conflict. -/
def rebaseInstruction (branchName targetBranch : String) (retries : Nat) : String :=
  "Your branch " ++ sq ++ branchName ++ sq ++ " has merge conflicts with "
    ++ targetBranch ++ " (attempt " ++ toString (retries + 1) ++ " of "
    ++ toString MAX_MERGE_RETRIES ++ "). Please rebase onto " ++ targetBranch
    ++ " and resolve the conflicts:\n\n1. Run: git rebase " ++ targetBranch
    ++ "\n2. Resolve any conflicts in the affected files\n3. Run: git rebase --continue"
    ++ "\n4. Then finish your task as normal."

/-- Embeds the Stop hook produced by `_make_stop_hook`: trivially succeed
when the worktree is gone; give up once the retry budget is exhausted;
otherwise auto-commit and attempt the merge, cleaning up on success or
aborting, bumping the retry counter and instructing a rebase on conflict.
Returns the merge state afterwards, the hook output, and the git commands
issued. -/
def stopHook (w : HookWorld) (branchName targetBranch : String)
    (ms : MergeState) : MergeState × HookOutput × List GitEffect :=
  if !w.worktreeExists then
    ({ ms with succeeded := some true }, { continueRunning := false }, [])
  else if ms.retries ≥ MAX_MERGE_RETRIES then
    ({ ms with succeeded := some false },
     { continueRunning := false,
       stopReason := some (mergeFailedMessage ms.retries branchName) }, [])
  else
    let commitEffects :=
      [GitEffect.addAll, GitEffect.statusCheck]
        ++ (if w.hasUncommitted then [GitEffect.commit] else [])
    if w.mergeOk then
      ({ ms with succeeded := some true }, { continueRunning := false },
       commitEffects
         ++ [.mergeAttempt branchName, .worktreeRemove, .branchDelete branchName, .push])
    else
      ({ ms with retries := ms.retries + 1 },
       { continueRunning := true,
         reason := some (rebaseInstruction branchName targetBranch ms.retries) },
       commitEffects ++ [.mergeAttempt branchName, .mergeAbort])

/-- The workload fields used by session startup and resume. -/
structure WorkloadData where
  id : String
  title : String
  description : String
  status : String
  session_id : Option String
  chat_id : String
  member_id : String
  display_name : String
  room_id : String
  main_chat_id : String
deriving DecidableEq, Repr

/-- One entry of the in-memory session registry `_sessions`. -/
structure SessionEntry where
  mergeState : MergeState
  branchName : String
  sessionApprovals : List String
  pendingApprovals : ToolApproval.PendingMap
deriving DecidableEq, Repr

/-- The session registry `_sessions`: workload id → session entry. -/
abbrev Registry := List (String × SessionEntry)

/-- Embeds `start_workload_session`: no-op with a warning when a session
entry already exists for the workload id; otherwise create or reuse the
worktree (marking `needs_attention` and aborting on failure), record the
branch and `running` status, read the target branch from the clone's
checked-out branch (defaulting to `main`), pre-register the session,
connect the agent client (rolling back the entry and marking
`needs_attention` on failure), start the relay, and send the initial
prompt — skipped when resuming from a stored session handle. -/
def startWorkloadSession (w : StartWorld) (reg : Registry)
    (wd : WorkloadData) (clonePath : FsPath) : Registry × List StartEffect :=
  if (alookup reg wd.id).isSome then
    (reg, [.warnedDuplicate])
  else
    let slug := slugify wd.title wd.id
    match ensureWorktree w clonePath slug with
    | (.error _, eff) =>
      (reg, eff ++ [.dbStatus wd.id "needs_attention",
                    .statusPublished wd.id "needs_attention" wd.room_id])
    | (.ok _, eff) =>
      let branchName := branchNameOf slug
      let targetBranch :=
        match w.checkedOutBranch with
        | some b => if pyStrip b == "" then "main" else pyStrip b
        | none => "main"
      let isResume := !(pyFalsyOptStr wd.session_id)
      let entry : SessionEntry :=
        { mergeState := { succeeded := none, retries := 0, targetBranch := targetBranch },
          branchName := branchName,
          sessionApprovals := [],
          pendingApprovals := [] }
      let eff1 := eff ++ [.dbBranchAndRunning wd.id branchName,
                          .statusPublished wd.id "running" wd.room_id,
                          .sessionRegistered wd.id]
      if w.connectOk then
        let eff2 := eff1 ++ [.clientConnected wd.id, .relayStarted wd.id]
        if isResume then
          (reg ++ [(wd.id, entry)], eff2 ++ [.resumedExisting wd.id (wd.session_id.getD "")])
        else
          (reg ++ [(wd.id, entry)], eff2 ++ [.initialPromptSent wd.id])
      else
        (reg, eff1 ++ [.sessionUnregistered wd.id,
                       .dbStatus wd.id "needs_attention",
                       .statusPublished wd.id "needs_attention" wd.room_id])

/-- The durable workloads table, reduced to the per-id status column. -/
abbrev DurableDB := List (String × String)

def dbLookup (db : DurableDB) (workloadId : String) : Option String :=
  alookup db workloadId

/-- Embeds `stop_workload_session`: pop any in-memory session (cancelling
its task and disconnecting its client), then update the durable status —
returning false when no workload row with that id exists — and publish the
status change. Returns the found flag, the registry afterwards, and the
durable store afterwards. -/
def stopWorkloadSession (reg : Registry) (db : DurableDB)
    (workloadId targetStatus : String) : Bool × Registry × DurableDB :=
  let reg2 := aerase reg workloadId
  if (dbLookup db workloadId).isSome then
    (true, reg2, aupdate db workloadId (fun _ => targetStatus))
  else
    (false, reg2, db)

/-- Embeds `resolve_tool_approval`: locate the workload's session and the
pending slot for the request id; return false (touching nothing) when the
session is missing, the request id is unknown, or the future is already
done; otherwise set the future's result. -/
def resolveToolApproval (reg : Registry) (workloadId approvalRequestId : String)
    (decision : ToolApproval.Decision) : Bool × Registry :=
  match alookup reg workloadId with
  | none => (false, reg)
  | some sess =>
    match alookup sess.pendingApprovals approvalRequestId with
    | none => (false, reg)
    | some (.done _) => (false, reg)
    | some .pending =>
      (true,
       aupdate reg workloadId (fun s =>
         { s with pendingApprovals :=
             (aupdate s.pendingApprovals approvalRequestId (fun _ => .done decision)) }))

end Workload

namespace Listener

open Workload

/- ── listener.py ─────────────────────────────────────────────────────── -/

/-- A row of the resume query of `fetch_workload_data_for_resume`
(workload joined with its chat, member, room and project). -/
structure ResumeRow where
  id : String
  title : String
  description : String
  status : String
  session_id : Option String
  chat_id : String
  member_id : String
  display_name : String
  room_id : String
  main_chat_id : String
deriving DecidableEq, Repr

/-- Embeds `fetch_workload_data_for_resume`: `none` when no row matches or
the row's `session_id` is missing or empty (Python falsiness); otherwise
the workload data used to restart the session. -/
def fetchWorkloadDataForResume (row : Option ResumeRow) : Option WorkloadData :=
  match row with
  | none => none
  | some r =>
    if pyFalsyOptStr r.session_id then none
    else
      some { id := r.id, title := r.title, description := r.description,
             status := r.status, session_id := r.session_id,
             chat_id := r.chat_id, member_id := r.member_id,
             display_name := r.display_name, room_id := r.room_id,
             main_chat_id := r.main_chat_id }

/-- What the follow-up handler of `listen_workload_messages` does with one
inbound message. Only `resumeStarted` launches `_resume_and_deliver`,
which is the only path that starts an agent process. -/
inductive RouteOutcome where
  | delivered
  | retryScheduled
  | noResume (why : String)
  | resumeStarted (data : WorkloadData)
deriving DecidableEq, Repr

/-- Embeds the per-message body of `listen_workload_messages`: deliver to
an active session when possible; when a resume is already in flight only
schedule a bounded delivery retry; otherwise consult the durable record
and start a resume only for an eligible workload. `delivered` abstracts
the success of `route_message`; `row` is the durable row for the id. -/
def handleFollowUp (delivered resuming : Bool) (row : Option ResumeRow) :
    RouteOutcome :=
  if delivered then .delivered
  else if resuming then .retryScheduled
  else
    match fetchWorkloadDataForResume row with
    | none => .noResume "not found or no session_id"
    | some wd =>
      if wd.status == "needs_attention" || wd.status == "completed" then
        .resumeStarted wd
      else
        .noResume ("status is " ++ wd.status)

end Listener

namespace Api

open Workload

/- ── ai/main.py and api/routes/workloads.py ─────────────────────────── -/

/-- Embeds the `/workloads/.../interrupt` endpoint of the AI service:
stop the session towards `needs_attention`, answering 404 when the
workload row is unknown. The registry pop happens either way. -/
def interruptWorkload (reg : Registry) (db : DurableDB) (workloadId : String) :
    Except Nat Unit × Registry × DurableDB :=
  let out := stopWorkloadSession reg db workloadId "needs_attention"
  (if out.1 then .ok () else .error 404, out.2.1, out.2.2)

/-- Embeds the `/workloads/.../cancel` endpoint of the AI service:
stop the session towards `cancelled`, answering 404 when the workload row
is unknown. -/
def cancelWorkload (reg : Registry) (db : DurableDB) (workloadId : String) :
    Except Nat Unit × Registry × DurableDB :=
  let out := stopWorkloadSession reg db workloadId "cancelled"
  (if out.1 then .ok () else .error 404, out.2.1, out.2.2)

/-- The decision literal accepted by the tool-approval endpoint. -/
inductive DecisionTier where
  | approve
  | approve_session
  | approve_project
  | deny
deriving DecidableEq, Repr

/-- Request body of `POST /workloads/.../tool-approval`. -/
structure ToolApprovalRequestBody where
  approval_request_id : String
  decision : DecisionTier
  tool_name : String
  reason : Option String := none
deriving DecidableEq, Repr

/-- The JSON payload published on the `tool:approvals` channel. -/
structure ToolDecisionPayload where
  workload_id : String
  approval_request_id : String
  decision : DecisionTier
  tool_name : String
  reason : Option String
deriving DecidableEq, Repr

/-- Embeds `submit_tool_approval`: reject a denial without a reason with a
422 before anything is published; otherwise publish exactly one decision
payload. The `Except` error carries the HTTP status and no events. -/
def submitToolApproval (workloadId : String) (req : ToolApprovalRequestBody) :
    Except Nat (List ToolDecisionPayload) :=
  if req.decision == DecisionTier.deny && pyFalsyOptStr req.reason then
    .error 422
  else
    .ok [{ workload_id := workloadId,
           approval_request_id := req.approval_request_id,
           decision := req.decision,
           tool_name := req.tool_name,
           reason := req.reason }]

end Api

/- ── Sample values used by witnesses ─────────────────────────────────── -/

/-- A session entry as `start_workload_session` registers it. -/
def entrySample : Workload.SessionEntry :=
  { mergeState := { succeeded := none, retries := 0, targetBranch := "main" },
    branchName := "workload/fix-login-bug-a1b2c3d4",
    sessionApprovals := [],
    pendingApprovals := [] }

/-- A workload as delivered by the dispatch event. -/
def wdSample : Workload.WorkloadData :=
  { id := "a1b2c3d4-9f00-4e21-b7aa-123456789abc", title := "Fix login bug",
    description := "desc", status := "running", session_id := none,
    chat_id := "c1", member_id := "m1", display_name := "Quinn",
    room_id := "r1", main_chat_id := "mc1" }

/-- A registry already holding a session for `wdSample`. -/
def regSample : Workload.Registry := [(wdSample.id, entrySample)]

/-- A typical start world: worktree absent, git and connection succeed. -/
def worldSample : Workload.StartWorld :=
  { worktreeExists := false, firstAdd := .ok, secondAdd := .ok,
    checkedOutBranch := some "main", connectOk := true }

/- ── Claim theorems ──────────────────────────────────────────────────── -/

/-- C1: starting a session for a workload id that already has an entry in
the registry is a no-op with a warning — the registry is returned
unchanged, no worktree is created, no agent client is connected, and the
existing entry is untouched. -/
theorem c1_start_session_idempotent :
    ∀ (w : Workload.StartWorld) (reg : Workload.Registry)
      (wd : Workload.WorkloadData) (clone : Workload.FsPath),
      (alookup reg wd.id).isSome = true →
      Workload.startWorkloadSession w reg wd clone = (reg, [.warnedDuplicate])
      ∧ (∀ p b, Workload.StartEffect.worktreeCreated p b
            ∉ (Workload.startWorkloadSession w reg wd clone).2)
      ∧ (∀ i, Workload.StartEffect.clientConnected i
            ∉ (Workload.startWorkloadSession w reg wd clone).2)
      ∧ alookup (Workload.startWorkloadSession w reg wd clone).1 wd.id
          = alookup reg wd.id := by
  intro w reg wd clone h
  have heq : Workload.startWorkloadSession w reg wd clone = (reg, [.warnedDuplicate]) := by
    simp [Workload.startWorkloadSession, h]
  exact ⟨heq, fun p b => by simp [heq], fun i => by simp [heq], by rw [heq]⟩

/-- C1 witness: a duplicate start against a registry already holding the
workload's session entry returns the registry unchanged with only the
warning effect. -/
theorem c1_start_session_idempotent_witness :
    (alookup regSample wdSample.id).isSome = true
    ∧ Workload.startWorkloadSession worldSample regSample wdSample
        ["inst", "repos", "clone"] = (regSample, [.warnedDuplicate]) :=
  ⟨rfl, (c1_start_session_idempotent worldSample regSample wdSample
          ["inst", "repos", "clone"] rfl).1⟩

/-- C2: the merge hook's retry counter never exceeds 2; when the counter
already equals 2 the hook records merge failure and issues no git command
(branch and worktree intact, no merge attempted); on a conflict it aborts
the merge, increments the counter by exactly 1, and keeps the agent
running with a rebase instruction. -/
theorem c2_merge_retry_bounded :
    ∀ (w : Workload.HookWorld) (b t : String) (ms : Workload.MergeState),
      (ms.retries ≤ 2 → ((Workload.stopHook w b t ms).1).retries ≤ 2)
      ∧ (ms.retries = 2 → w.worktreeExists = true →
          Workload.stopHook w b t ms
            = ({ ms with succeeded := some false },
               { continueRunning := false,
                 stopReason := some (Workload.mergeFailedMessage 2 b) }, []))
      ∧ (w.worktreeExists = true → ms.retries < 2 → w.mergeOk = false →
          Workload.stopHook w b t ms
            = ({ ms with retries := ms.retries + 1 },
               { continueRunning := true,
                 reason := some (Workload.rebaseInstruction b t ms.retries) },
               [Workload.GitEffect.addAll, Workload.GitEffect.statusCheck]
                 ++ (if w.hasUncommitted then [Workload.GitEffect.commit] else [])
                 ++ [.mergeAttempt b, .mergeAbort])) := by
  intro w b t ms
  refine ⟨?_, ?_, ?_⟩
  · intro hle
    by_cases hw : w.worktreeExists = true
    · by_cases hr : 2 ≤ ms.retries
      · simpa [Workload.stopHook, Workload.MAX_MERGE_RETRIES, hw, hr] using hle
      · by_cases hm : w.mergeOk = true
        · simpa [Workload.stopHook, Workload.MAX_MERGE_RETRIES, hw, hr, hm] using hle
        · simp only [Bool.not_eq_true] at hm
          simp only [Workload.stopHook, Workload.MAX_MERGE_RETRIES, hw, hm]
          simp [hr]
          omega
    · simp only [Bool.not_eq_true] at hw
      simpa [Workload.stopHook, hw] using hle
  · intro h2 hw
    simp [Workload.stopHook, hw, h2, Workload.MAX_MERGE_RETRIES]
  · intro hw hlt hm
    have hr : ¬ ms.retries ≥ Workload.MAX_MERGE_RETRIES := by
      simp only [Workload.MAX_MERGE_RETRIES, ge_iff_le, not_le]
      omega
    simp [Workload.stopHook, hw, hr, hm]

/-- C2 witness: with the counter already at 2, a completion signal records
failure and issues no git command; with the counter at 1, a conflicting
completion signal bumps the counter to 2 and keeps the agent running. -/
theorem c2_merge_retry_bounded_witness :
    ((⟨none, 2, "main"⟩ : Workload.MergeState).retries = 2)
    ∧ (⟨true, false, false⟩ : Workload.HookWorld).worktreeExists = true
    ∧ Workload.stopHook ⟨true, false, false⟩ "workload/x" "main" ⟨none, 2, "main"⟩
        = (⟨some false, 2, "main"⟩,
           { continueRunning := false,
             stopReason := some (Workload.mergeFailedMessage 2 "workload/x") }, [])
    ∧ ((Workload.stopHook ⟨true, false, false⟩ "workload/x" "main"
          ⟨none, 1, "main"⟩).1).retries = 2 := by
  refine ⟨rfl, rfl, ?_, ?_⟩
  · exact (c2_merge_retry_bounded ⟨true, false, false⟩ "workload/x" "main"
      ⟨none, 2, "main"⟩).2.1 rfl rfl
  · have h := (c2_merge_retry_bounded ⟨true, false, false⟩ "workload/x" "main"
      ⟨none, 1, "main"⟩).2.2 rfl (by decide) rfl
    rw [h]

/-- C3: evaluating the matcher at the failing input. The inline comment of
`_tool_matches` and the spec both state that pattern `Bash(git push:*)`
should prefix-match the key `Bash(git push origin main)`, but
`pattern[:-2]` keeps the colon — the retained prefix is `Bash(git push:`
— so the match fails when the runtime suggests the full-command key.
The derived-key path still auto-approves because the heuristic key for
`git push origin main` is exactly `Bash(git push:*)`, and `git pull` never
matches. -/
theorem c3_wildcard_prefix_keeps_colon :
    ToolApproval.buildPermissionKey "Bash" { command := some "git push origin main" }
        [[some "Bash(git push origin main)"]] = "Bash(git push origin main)"
    ∧ ToolApproval.toolMatches "Bash" { command := some "git push origin main" }
        ["Bash(git push:*)"] [[some "Bash(git push origin main)"]] = false
    ∧ strDropRight "Bash(git push:*)" 2 = "Bash(git push:"
    ∧ strStartsWith "Bash(git push origin main)" "Bash(git push:" = false
    ∧ ToolApproval.buildPermissionKey "Bash" { command := some "git push origin main" } []
        = "Bash(git push:*)"
    ∧ ToolApproval.toolMatches "Bash" { command := some "git push origin main" }
        ["Bash(git push:*)"] [] = true
    ∧ ToolApproval.toolMatches "Bash" { command := some "git pull origin main" }
        ["Bash(git push:*)"] [] = false :=
  ⟨rfl, by decide, by decide, by decide, rfl, by decide, by decide⟩

/-- C4: on a human decision, `deny` yields a denial carrying the human's
reason, `approve` allows without touching any allow list, `approve_session`
allows and adds the key to the session allow list, and `approve_project`
allows, adds the key to the session allow list, and appends it to the
project's persisted allow document when not already present. -/
theorem c4_decision_tiers :
    ∀ (key : String) (sess : List String) (doc : ToolApproval.AllowDoc)
      (r : String) (rsn : Option (Option String)),
      ToolApproval.processDecision ⟨"deny", some (some r)⟩ key sess doc
          = (.deny (some r), sess, doc)
      ∧ ToolApproval.processDecision ⟨"approve", rsn⟩ key sess doc
          = (.allow, sess, doc)
      ∧ ToolApproval.processDecision ⟨"approve_session", rsn⟩ key sess doc
          = (.allow, ToolApproval.setAdd sess key, doc)
      ∧ ToolApproval.processDecision ⟨"approve_project", rsn⟩ key sess doc
          = (.allow, ToolApproval.setAdd sess key,
             ToolApproval.writeProjectAllowedTool doc key) :=
  fun _ _ _ _ _ => ⟨rfl, rfl, rfl, rfl⟩

/-- C5: the approval wait times out after 300 seconds; the raw wait raises
a timeout, and the callback converts it into an explicit denial whose
message explains the timeout (popping the pending slot) instead of
surfacing an exception. -/
theorem c5_timeout_denial :
    ToolApproval.APPROVAL_TIMEOUT_SECONDS = 300
    ∧ ∀ (tn key : String) (sess : List String) (doc : ToolApproval.AllowDoc)
        (pend : ToolApproval.PendingMap) (rid : String),
        ToolApproval.waitFor .timedOut = .error ()
        ∧ ToolApproval.concludeApprovalWait tn key sess doc pend rid .timedOut
            = (.deny (some (ToolApproval.timeoutMessage tn)), sess, doc,
               aerase pend rid)
        ∧ ToolApproval.timeoutMessage tn
            = "Tool approval timed out after 300s. "
              ++ "No human responded to the request to use " ++ tn ++ "." := by
  refine ⟨rfl, fun tn key sess doc pend rid => ⟨rfl, rfl, ?_⟩⟩
  rfl

/-- C7 counterexample: the claim locates the 8 hex characters at the end
of the id, but the code takes the first 8 (`workload_id[:8]`): a workload
titled "Fix login bug" whose id ends in `a1b2c3d4` (without starting with
it) gets slug `fix-login-bug-ffffffff`, not `fix-login-bug-a1b2c3d4`. -/
theorem c7_slug_counterexample :
    Workload.slugify "Fix login bug" "ffffffff-0000-4000-8000-0000a1b2c3d4"
        = "fix-login-bug-ffffffff"
    ∧ strEndsWith "ffffffff-0000-4000-8000-0000a1b2c3d4" "a1b2c3d4" = true
    ∧ ("fix-login-bug-ffffffff" ≠ "fix-login-bug-a1b2c3d4") :=
  ⟨rfl, by decide, by decide⟩

/-- C7 (amended): the slug is the branch-safe sanitized lowercase title
plus the first 8 characters of the workload id, the worktree path is
`clone/../worktrees/slug`, the branch is `workload/slug`, and an existing
worktree path is reused; a workload titled "Fix login bug" whose id starts
with `a1b2c3d4` gets slug `fix-login-bug-a1b2c3d4`. -/
theorem c7_worktree_derivation :
    ∀ (w : Workload.StartWorld) (clone : Workload.FsPath) (slug : String),
      (w.worktreeExists = true →
        Workload.ensureWorktree w clone slug
          = (.ok (Workload.worktreePathOf clone slug),
             [.worktreeReused (Workload.worktreePathOf clone slug)]))
      ∧ Workload.worktreePathOf clone slug = clone.dropLast ++ ["worktrees", slug]
      ∧ Workload.branchNameOf slug = "workload/" ++ slug
      ∧ Workload.slugify "Fix login bug" "a1b2c3d4-9f00-4e21-b7aa-123456789abc"
          = "fix-login-bug-a1b2c3d4"
      ∧ Workload.worktreePathOf ["inst", "repos", "clone"] "fix-login-bug-a1b2c3d4"
          = ["inst", "repos", "worktrees", "fix-login-bug-a1b2c3d4"]
      ∧ Workload.branchNameOf "fix-login-bug-a1b2c3d4"
          = "workload/fix-login-bug-a1b2c3d4" := by
  intro w clone slug
  refine ⟨?_, rfl, rfl, rfl, rfl, rfl⟩
  intro h
  simp [Workload.ensureWorktree, h]

/-- Helper for C6: inverting a `resumeStarted` outcome of the follow-up
handler yields the eligibility conditions the listener checked. -/
theorem handleFollowUp_resume_inversion (delivered resuming : Bool)
    (row : Option Listener.ResumeRow) (wd : Workload.WorkloadData)
    (h : Listener.handleFollowUp delivered resuming row = .resumeStarted wd) :
    delivered = false ∧ resuming = false
    ∧ ∃ r, row = some r ∧ pyFalsyOptStr r.session_id = false
        ∧ (r.status = "needs_attention" ∨ r.status = "completed") := by
  cases delivered with
  | true => simp [Listener.handleFollowUp] at h
  | false =>
    cases resuming with
    | true => simp [Listener.handleFollowUp] at h
    | false =>
      cases row with
      | none => simp [Listener.handleFollowUp, Listener.fetchWorkloadDataForResume] at h
      | some r =>
        refine ⟨rfl, rfl, r, rfl, ?_⟩
        by_cases hs : pyFalsyOptStr r.session_id = true
        · simp [Listener.handleFollowUp, Listener.fetchWorkloadDataForResume, hs] at h
        · simp only [Bool.not_eq_true] at hs
          refine ⟨hs, ?_⟩
          by_cases hstat : (r.status == "needs_attention" || r.status == "completed") = true
          · simpa [Bool.or_eq_true, beq_iff_eq] using hstat
          · simp only [Bool.not_eq_true] at hstat
            simp [Listener.handleFollowUp, Listener.fetchWorkloadDataForResume,
              hs, hstat] at h

/-- C6: a resume is started for a follow-up only when no active delivery
succeeded, no resume is in flight, the durable row exists with a non-empty
session handle, and its status is `needs_attention` or `completed`; in
particular no cancelled workload (or any other ineligible status) ever
reaches the resume path, so no agent process is started for it. -/
theorem c6_resume_eligibility :
    ∀ (delivered resuming : Bool) (row : Option Listener.ResumeRow),
      (∀ wd, Listener.handleFollowUp delivered resuming row = .resumeStarted wd →
        delivered = false ∧ resuming = false
        ∧ ∃ r, row = some r ∧ pyFalsyOptStr r.session_id = false
            ∧ (r.status = "needs_attention" ∨ r.status = "completed"))
      ∧ (∀ r : Listener.ResumeRow, r.status = "cancelled" →
          ∀ wd, Listener.handleFollowUp delivered resuming (some r)
            ≠ .resumeStarted wd) := by
  intro delivered resuming row
  refine ⟨fun wd h => handleFollowUp_resume_inversion delivered resuming row wd h, ?_⟩
  intro r hc wd h
  obtain ⟨-, -, r2, hr2, -, hstat⟩ :=
    handleFollowUp_resume_inversion delivered resuming (some r) wd h
  cases hr2
  rw [hc] at hstat
  rcases hstat with h1 | h1 <;> exact absurd h1 (by decide)

/-- Sample eligible durable row used by the C6 witness. -/
def rowEligible : Listener.ResumeRow :=
  { id := "w1", title := "Fix login bug", description := "desc",
    status := "needs_attention", session_id := some "sess-1",
    chat_id := "c1", member_id := "m1", display_name := "Quinn",
    room_id := "r1", main_chat_id := "mc1" }

/-- Sample cancelled durable row used by the C6 witness. -/
def rowCancelled : Listener.ResumeRow :=
  { rowEligible with status := "cancelled" }

/-- The workload data the resume path builds from `rowEligible`. -/
def wdEligible : Workload.WorkloadData :=
  { id := "w1", title := "Fix login bug", description := "desc",
    status := "needs_attention", session_id := some "sess-1",
    chat_id := "c1", member_id := "m1", display_name := "Quinn",
    room_id := "r1", main_chat_id := "mc1" }

/-- C6 witness: an eligible row actually starts a resume and satisfies the
inverted conditions, while the same row with status `cancelled` never
reaches the resume path. -/
theorem c6_resume_eligibility_witness :
    Listener.handleFollowUp false false (some rowEligible) = .resumeStarted wdEligible
    ∧ (false = false ∧ false = false
        ∧ ∃ r, (some rowEligible) = some r ∧ pyFalsyOptStr r.session_id = false
            ∧ (r.status = "needs_attention" ∨ r.status = "completed"))
    ∧ rowCancelled.status = "cancelled"
    ∧ Listener.handleFollowUp false false (some rowCancelled)
        ≠ .resumeStarted wdEligible := by
  refine ⟨rfl, ?_, rfl, ?_⟩
  · exact (c6_resume_eligibility false false (some rowEligible)).1 wdEligible rfl
  · exact (c6_resume_eligibility false false (some rowCancelled)).2 rowCancelled rfl
      wdEligible

/-- C8: `interrupt` and `cancel` answer 404 exactly when no workload row
with the id exists; otherwise they set the durable status to
`needs_attention` respectively `cancelled`, whatever the prior status and
whether or not an in-memory session exists (the registry is universally
quantified). -/
theorem c8_interrupt_cancel :
    ∀ (reg : Workload.Registry) (db : Workload.DurableDB) (wid : String),
      (Workload.dbLookup db wid = none →
        (Api.interruptWorkload reg db wid).1 = .error 404
        ∧ (Api.cancelWorkload reg db wid).1 = .error 404
        ∧ (Api.cancelWorkload reg db wid).2.2 = db)
      ∧ (∀ prior, Workload.dbLookup db wid = some prior →
          (Api.interruptWorkload reg db wid).1 = .ok ()
          ∧ Workload.dbLookup (Api.interruptWorkload reg db wid).2.2 wid
              = some "needs_attention"
          ∧ (Api.cancelWorkload reg db wid).1 = .ok ()
          ∧ Workload.dbLookup (Api.cancelWorkload reg db wid).2.2 wid
              = some "cancelled") := by
  intro reg db wid
  constructor
  · intro h
    refine ⟨?_, ?_, ?_⟩ <;>
      simp [Api.interruptWorkload, Api.cancelWorkload,
        Workload.stopWorkloadSession, h]
  · intro prior h
    have h' : alookup db wid = some prior := h
    have hi : Workload.dbLookup (aupdate db wid (fun _ => "needs_attention")) wid
        = some "needs_attention" := by
      unfold Workload.dbLookup
      rw [alookup_aupdate_self, h']
      rfl
    have hc : Workload.dbLookup (aupdate db wid (fun _ => "cancelled")) wid
        = some "cancelled" := by
      unfold Workload.dbLookup
      rw [alookup_aupdate_self, h']
      rfl
    refine ⟨?_, ?_, ?_, ?_⟩ <;>
      simp [Api.interruptWorkload, Api.cancelWorkload,
        Workload.stopWorkloadSession, h, hi, hc]

/-- C8 witness: on a one-row store, cancel and interrupt succeed with the
expected transitions even with an empty registry, and both answer 404 on
an unknown id. -/
theorem c8_interrupt_cancel_witness :
    Workload.dbLookup [("w1", "running")] "w1" = some "running"
    ∧ (Api.cancelWorkload [] [("w1", "running")] "w1").1 = .ok ()
    ∧ Workload.dbLookup (Api.cancelWorkload [] [("w1", "running")] "w1").2.2 "w1"
        = some "cancelled"
    ∧ Workload.dbLookup ([] : Workload.DurableDB) "w2" = none
    ∧ (Api.interruptWorkload [] [] "w2").1 = .error 404 := by
  refine ⟨rfl, ?_, ?_, rfl, ?_⟩
  · exact ((c8_interrupt_cancel [] [("w1", "running")] "w1").2 "running" rfl).2.2.1
  · exact ((c8_interrupt_cancel [] [("w1", "running")] "w1").2 "running" rfl).2.2.2
  · exact ((c8_interrupt_cancel [] [] "w2").1 rfl).1

/-- C9: an approval request resolves at most once — a resolution attempt
that returns false changes nothing, any second resolution attempt for the
same workload and request id returns false and changes nothing, and after
the approval wait concludes (by decision or timeout) the request id is no
longer in the pending map. -/
theorem c9_resolve_at_most_once :
    ∀ (reg : Workload.Registry) (wid rid : String)
      (d d2 : ToolApproval.Decision),
      ((Workload.resolveToolApproval reg wid rid d).1 = false →
        (Workload.resolveToolApproval reg wid rid d).2 = reg)
      ∧ (Workload.resolveToolApproval
            (Workload.resolveToolApproval reg wid rid d).2 wid rid d2
          = (false, (Workload.resolveToolApproval reg wid rid d).2))
      ∧ (∀ (tn key : String) (sess : List String) (doc : ToolApproval.AllowDoc)
            (pend : ToolApproval.PendingMap) (outcome : ToolApproval.WaitOutcome),
          alookup (ToolApproval.concludeApprovalWait tn key sess doc pend rid
              outcome).2.2.2 rid = none) := by
  intro reg wid rid d d2
  refine ⟨?_, ?_, ?_⟩
  · intro h
    cases hs : alookup reg wid with
    | none => simp [Workload.resolveToolApproval, hs]
    | some sess =>
      cases hp : alookup sess.pendingApprovals rid with
      | none => simp [Workload.resolveToolApproval, hs, hp]
      | some fs =>
        cases fs with
        | done r => simp [Workload.resolveToolApproval, hs, hp]
        | pending => simp [Workload.resolveToolApproval, hs, hp] at h
  · cases hs : alookup reg wid with
    | none => simp [Workload.resolveToolApproval, hs]
    | some sess =>
      cases hp : alookup sess.pendingApprovals rid with
      | none => simp [Workload.resolveToolApproval, hs, hp]
      | some fs =>
        cases fs with
        | done r => simp [Workload.resolveToolApproval, hs, hp]
        | pending =>
          have h1 := alookup_aupdate_self reg wid (fun s =>
            { s with pendingApprovals :=
                (aupdate s.pendingApprovals rid (fun _ => .done d)) })
          rw [hs] at h1
          have h2 := alookup_aupdate_self sess.pendingApprovals rid
            (fun _ => ToolApproval.FutureState.done d)
          rw [hp] at h2
          simp [Workload.resolveToolApproval, hs, hp, h1, h2]
  · intro tn key sess doc pend outcome
    cases outcome with
    | timedOut =>
      simp [ToolApproval.concludeApprovalWait, ToolApproval.waitFor,
        alookup_aerase_self]
    | decided dd =>
      simp [ToolApproval.concludeApprovalWait, ToolApproval.waitFor,
        alookup_aerase_self]

/-- A registry with one session holding one pending approval slot, used by
the C9 witness. -/
def regPending : Workload.Registry :=
  [("w1", { mergeState := { succeeded := none, retries := 0, targetBranch := "main" },
            branchName := "workload/x", sessionApprovals := [],
            pendingApprovals := [("r1", .pending)] })]

/-- A sample human decision used by the C9 witness. -/
def decApprove : ToolApproval.Decision := { tier := "approve", reason := some none }

/-- C9 witness: resolving against an empty registry fails and changes
nothing, and after a successful resolution on a pending slot the second
attempt fails without changing the registry. -/
theorem c9_resolve_at_most_once_witness :
    (Workload.resolveToolApproval [] "w1" "r1" decApprove).1 = false
    ∧ (Workload.resolveToolApproval [] "w1" "r1" decApprove).2 = []
    ∧ (Workload.resolveToolApproval regPending "w1" "r1" decApprove).1 = true
    ∧ Workload.resolveToolApproval
        (Workload.resolveToolApproval regPending "w1" "r1" decApprove).2
        "w1" "r1" decApprove
      = (false, (Workload.resolveToolApproval regPending "w1" "r1" decApprove).2) := by
  refine ⟨rfl, ?_, rfl, ?_⟩
  · exact (c9_resolve_at_most_once [] "w1" "r1" decApprove decApprove).1 rfl
  · exact (c9_resolve_at_most_once regPending "w1" "r1" decApprove decApprove).2.1

/-- C10: the boundary API rejects a tool-approval decision of `deny`
without a reason (absent or empty) with a 422 and publishes nothing;
every published deny decision carries a non-empty human reason. -/
theorem c10_deny_requires_reason :
    ∀ (wid rid tn : String) (reason : Option String),
      Api.submitToolApproval wid ⟨rid, .deny, tn, none⟩ = .error 422
      ∧ Api.submitToolApproval wid ⟨rid, .deny, tn, some ""⟩ = .error 422
      ∧ (∀ msgs, Api.submitToolApproval wid ⟨rid, .deny, tn, reason⟩ = .ok msgs →
          ∃ r, reason = some r ∧ r ≠ ""
            ∧ msgs = [⟨wid, rid, .deny, tn, some r⟩]) := by
  intro wid rid tn reason
  refine ⟨rfl, rfl, ?_⟩
  intro msgs h
  cases reason with
  | none => simp [Api.submitToolApproval, pyFalsyOptStr] at h
  | some r =>
    by_cases hr : r = ""
    · subst hr
      simp [Api.submitToolApproval, pyFalsyOptStr] at h
    · refine ⟨r, rfl, hr, ?_⟩
      have hb : (r == "") = false := by
        simpa using hr
      simp [Api.submitToolApproval, pyFalsyOptStr, hb] at h
      exact h.symm

/-- C10 witness: a deny with a non-empty reason is accepted and published
with that reason. -/
theorem c10_deny_requires_reason_witness :
    Api.submitToolApproval "w1" ⟨"r1", .deny, "Bash", some "unsafe"⟩
        = .ok [⟨"w1", "r1", .deny, "Bash", some "unsafe"⟩]
    ∧ ∃ r, (some "unsafe" : Option String) = some r ∧ r ≠ ""
        ∧ ([(⟨"w1", "r1", .deny, "Bash", some "unsafe"⟩ : Api.ToolDecisionPayload)]
            = [⟨"w1", "r1", .deny, "Bash", some r⟩]) :=
  ⟨rfl, (c10_deny_requires_reason "w1" "r1" "Bash" (some "unsafe")).2.2 _ rfl⟩

/-- C7 witness: reusing an existing worktree for the sample slug yields
the derived path with only the reuse effect. -/
theorem c7_worktree_derivation_witness :
    (⟨true, .ok, .ok, some "main", true⟩ : Workload.StartWorld).worktreeExists = true
    ∧ Workload.ensureWorktree ⟨true, .ok, .ok, some "main", true⟩
        ["inst", "repos", "clone"] "fix-login-bug-a1b2c3d4"
        = (.ok ["inst", "repos", "worktrees", "fix-login-bug-a1b2c3d4"],
           [.worktreeReused ["inst", "repos", "worktrees", "fix-login-bug-a1b2c3d4"]]) := by
  refine ⟨rfl, ?_⟩
  have h := (c7_worktree_derivation ⟨true, .ok, .ok, some "main", true⟩
    ["inst", "repos", "clone"] "fix-login-bug-a1b2c3d4").1 rfl
  simpa [Workload.worktreePathOf] using h

end TeamAgent
